import Mathlib

/-!
Verification development for the demo-bank repository.

The Go sources embedded here:
  * package bank, the Bank ledger: NewBank, Bank.Deposit, Bank.Withdraw,
    generateTransactionID, Bank.load, Bank.save;
  * package bank, service side: withdrawHandler (the /withdraw HTTP handler);
  * package bank, client side: callService and the InsufficientFundsError type.

Modelling conventions:
  * Go strings are List Char.
  * Go int is Int (overflow is out of scope for every claim treated here).
  * The process environment visible to the ledger is a World: the Bank value
    plus the contents of the persisted data file (Option (List Char), none
    when the file does not exist).
  * Randomness (rand.Intn 10 inside generateTransactionID) is an injected
    stream rnd : Nat → Nat; draw i is rnd i % 10, the % 10 expressing the
    contract of rand.Intn 10.
  * I/O outcomes are injected as booleans: readOk (os.ReadFile succeeding in
    Bank.load), createOk (os.Create succeeding in Bank.save), writeOk
    (file.Write succeeding in Bank.save).
  * log.Fatalf terminates the process: an operation that reaches it produces
    the outcome OpResult.fatal carrying the in-memory state at that moment.
-/

/-! ## Character and string utilities (Go strings, regexp fragments) -/

/-- The allowed characters of generateTransactionID ("0123456789"),
also used to render decimal digits. -/
def allowedChars : List Char := ['0', '1', '2', '3', '4', '5', '6', '7', '8', '9']

/-- Go regexp character class backslash-s: [tab, newline, vertical tab,
form feed, carriage return, space]. -/
def isSpaceChar (c : Char) : Bool :=
  c = ' ' || c = '\t' || c = '\n' || c = '\x0b' || c = '\x0c' || c = '\r'

/-- The characters before the first newline: what a Go regexp dot-star
(which does not match newline) captures greedily. -/
def takeUntilNewline : List Char → List Char
  | [] => []
  | c :: cs => if c = '\n' then [] else c :: takeUntilNewline cs

/-- some rest when `pat` is a prefix of the list, returning what follows;
none otherwise. -/
def dropPre : List Char → List Char → Option (List Char)
  | [], l => some l
  | _ :: _, [] => none
  | a :: as, b :: bs => if a = b then dropPre as bs else none

/-- strings.Contains: the pattern occurs somewhere in the list. -/
def containsSub (pat : List Char) : List Char → Bool
  | [] => pat.isEmpty
  | c :: cs => (dropPre pat (c :: cs)).isSome || containsSub pat cs

/-- The Go regexp colon-backslash-s-capture-dot-star, FindStringSubmatch
group 1: at the leftmost position where a colon is followed by a whitespace
character, capture the rest of the line. -/
def capColonSpace : List Char → Option (List Char)
  | [] => none
  | c :: cs =>
    if c = ':' then
      match cs with
      | [] => none
      | d :: ds => if isSpaceChar d then some (takeUntilNewline ds) else capColonSpace cs
    else capColonSpace cs

/-- The Go regexp marker-backslash-s-capture-dot-star, FindStringSubmatch
group 1: at the leftmost position where the literal marker is followed by a
whitespace character, capture the rest of the line. -/
def capMarker (m : List Char) : List Char → Option (List Char)
  | [] => none
  | c :: cs =>
    match dropPre m (c :: cs) with
    | some rest =>
      match rest with
      | [] => capMarker m cs
      | d :: ds => if isSpaceChar d then some (takeUntilNewline ds) else capMarker m cs
    | none => capMarker m cs

/-! ## Decimal rendering (fmt %d) and parsing (strconv.Atoi, json.Unmarshal) -/

/-- Decimal digits of a Nat, most significant first; fuel-driven so that it
reduces definitionally (the fuel n + 1 always suffices). -/
def natReprAux : Nat → Nat → List Char
  | 0, _ => []
  | fuel + 1, n =>
    if n < 10 then [allowedChars.getD n '0']
    else natReprAux fuel (n / 10) ++ [allowedChars.getD (n % 10) '0']

/-- Decimal rendering of a Nat. -/
def natRepr (n : Nat) : List Char := natReprAux (n + 1) n

/-- fmt's %d on a Go int: minus sign for negatives, then decimal digits. -/
def intRepr (i : Int) : List Char :=
  if i < 0 then '-' :: natRepr (-i).toNat else natRepr i.toNat

/-- Whether the character is one of the ten decimal digits. -/
def isDigitCh (c : Char) : Bool := allowedChars.contains c

/-- Numeric value of a run of decimal digits (most significant first). -/
def digitsVal (cs : List Char) : Nat :=
  cs.foldl (fun acc c => acc * 10 + (c.toNat - 48)) 0

/-- strconv.Atoi: optional sign, then a nonempty run of decimal digits
covering the whole string. Range limits of the 64-bit int are out of scope. -/
def atoi (s : List Char) : Option Int :=
  match s with
  | '-' :: rest =>
    if rest ≠ [] ∧ rest.all isDigitCh then some (-(digitsVal rest : Int)) else none
  | '+' :: rest =>
    if rest ≠ [] ∧ rest.all isDigitCh then some ((digitsVal rest : Int)) else none
  | _ =>
    if s ≠ [] ∧ s.all isDigitCh then some ((digitsVal s : Int)) else none

/-- JSON whitespace. -/
def isJsonWS (c : Char) : Bool := c = ' ' || c = '\t' || c = '\n' || c = '\r'

/-- The list without leading and trailing JSON whitespace. -/
def trimWS (cs : List Char) : List Char :=
  ((cs.dropWhile isJsonWS).reverse.dropWhile isJsonWS).reverse

/-- A valid JSON unsigned-integer literal: nonempty decimal digits with no
leading zero (except the single digit 0 itself). -/
def jsonDigitsOk : List Char → Bool
  | [] => false
  | [c] => isDigitCh c
  | c :: rest => isDigitCh c && c ≠ '0' && rest.all isDigitCh

/-- json.Unmarshal of the file contents into a Go int: surrounding
whitespace, an optional minus sign, and a JSON integer literal; anything
else (a float, an exponent, non-numeric text) is an unmarshalling error. -/
def jsonParseInt (s : List Char) : Option Int :=
  match trimWS s with
  | '-' :: rest => if jsonDigitsOk rest then some (-(digitsVal rest : Int)) else none
  | cs => if jsonDigitsOk cs then some ((digitsVal cs : Int)) else none

/-! ## The Bank ledger (package bank, ui.go lines 218-412) -/

/-- Bank: account name, balance, and the idempotency cache (requests maps
idempotency keys to transaction IDs). The Go map is modelled as an
association list: the newest binding is consed on and lookup takes the
first match. The requestsLock mutex has no effect on the sequential
semantics embedded here; the interleaved model below treats it. -/
structure Bank where
  name : List Char
  balance : Int
  requests : List (List Char × List Char)
deriving DecidableEq

/-- Lookup in the requests association list (the Go map read
bank.requests[idempotencyKey]). -/
def lookupKey : List (List Char × List Char) → List Char → Option (List Char)
  | [], _ => none
  | (k, v) :: rest, key => if k = key then some v else lookupKey rest key

/-- The world the ledger acts on: the Bank value in memory plus the contents
of the persisted data file (none when the file does not exist). -/
structure World where
  bank : Bank
  file : Option (List Char)
deriving DecidableEq

/-- The business errors a ledger operation can return, with the values the
Go fmt.Errorf message carries. persistence mirrors the error channel of
Bank.save (the err returned through the deposit/withdraw save check). -/
inductive BankErr where
  | invalidAmountDep (amount : Int)
  | invalidAmountWd (amount : Int)
  | insufficientFunds (amount : Int) (balance : Int)
  | persistence
deriving DecidableEq

/-- The detail text of the insufficient-funds message after "insufficient
funds: " (Go: "withdrawal amount $%d exceeds balance $%d"). -/
def wdDetail (amount balance : Int) : List Char :=
  ("withdrawal amount $").data ++ intRepr amount
    ++ (" exceeds balance $").data ++ intRepr balance

/-- err.Error(): the string fmt.Errorf built for each error. The persistence
case never occurs (Bank.save below never returns a non-nil error), so its
rendering is irrelevant; it is given the empty string. -/
def errString : BankErr → List Char
  | .invalidAmountDep amount => ("Invalid amount - ").data ++ intRepr amount
  | .invalidAmountWd amount => ("Invalid amount: ").data ++ intRepr amount
  | .insufficientFunds amount balance =>
    ("insufficient funds: ").data ++ wdDetail amount balance
  | .persistence => []

/-- Outcome of Deposit or Withdraw: the Go (string, error) pair, plus the
fatal outcome in which log.Fatalf inside Bank.save terminated the process
(carrying the state at that moment: the in-memory update is applied, the
file is not). -/
inductive OpResult where
  | ok (txID : List Char) (w : World)
  | fail (e : BankErr) (w : World)
  | fatal (w : World)
deriving DecidableEq

/-- The transaction ID of a successful outcome, if any. -/
def OpResult.txOf : OpResult → Option (List Char)
  | .ok txID _ => some txID
  | _ => none

/-- Whether the outcome returned a persistence error to the caller. -/
def isPersistFail : OpResult → Bool
  | .fail .persistence _ => true
  | _ => false

/-- generateTransactionID (ui.go 336-344): the prefix followed by length
characters drawn from "0123456789"; draw i is rand.Intn 10, injected as
rnd i % 10. -/
def generateTransactionID (pre : List Char) (length : Nat) (rnd : Nat → Nat) : List Char :=
  pre ++ (List.range length).map fun i => allowedChars.getD (rnd i % 10) '0'

/-- The idempotency lookup guard in Deposit/Withdraw: only a non-empty key
is looked up in the requests map. -/
def cachedTx (key : List Char) (reqs : List (List Char × List Char)) : Option (List Char) :=
  if key = [] then none else lookupKey reqs key

/-- Bank.save (ui.go 393-412). json.MarshalIndent of the int balance is its
decimal rendering. os.Create failing hits log.Fatalf: the process dies and
save never returns (outcome none). Otherwise os.Create truncates the file;
file.Write's and file.Sync's errors are ignored (a failed write leaves the
truncated empty file), and the err returned is the nil error from os.Create:
the returned error channel (Option BankErr) is always none. -/
def Bank.save (createOk writeOk : Bool) (w : World) : Option (World × Option BankErr) :=
  if createOk then
    some ({ w with file := some (if writeOk then intRepr w.bank.balance else []) }, none)
  else none

/-- Bank.Deposit (ui.go 260-290). Checks the amount, then the idempotency
cache (non-empty keys only), then applies the balance change, generates the
transaction ID, records the key (also the empty key) and saves. -/
def Bank.Deposit (amount : Int) (idempotencyKey : List Char) (rnd : Nat → Nat)
    (createOk writeOk : Bool) (w : World) : OpResult :=
  if amount < 1 then .fail (.invalidAmountDep amount) w
  else
    match cachedTx idempotencyKey w.bank.requests with
    | some previousTxID => .ok previousTxID w
    | none =>
      let bank1 := { w.bank with balance := w.bank.balance + amount }
      let txID := generateTransactionID (("D").data) 10 rnd
      let bank2 := { bank1 with requests := (idempotencyKey, txID) :: bank1.requests }
      let w1 : World := { bank := bank2, file := w.file }
      match Bank.save createOk writeOk w1 with
      | none => .fatal w1
      | some (w2, some e) => .fail e w2
      | some (w2, none) => .ok txID w2

/-- Bank.Withdraw (ui.go 297-332). Checks the amount, then insufficient
funds (before the idempotency lookup), then the idempotency cache, then
applies the balance change, generates the transaction ID, records the key
and saves. -/
def Bank.Withdraw (amount : Int) (idempotencyKey : List Char) (rnd : Nat → Nat)
    (createOk writeOk : Bool) (w : World) : OpResult :=
  if amount < 1 then .fail (.invalidAmountWd amount) w
  else if w.bank.balance < amount then .fail (.insufficientFunds amount w.bank.balance) w
  else
    match cachedTx idempotencyKey w.bank.requests with
    | some previousTxID => .ok previousTxID w
    | none =>
      let bank1 := { w.bank with balance := w.bank.balance - amount }
      let txID := generateTransactionID (("W").data) 10 rnd
      let bank2 := { bank1 with requests := (idempotencyKey, txID) :: bank1.requests }
      let w1 : World := { bank := bank2, file := w.file }
      match Bank.save createOk writeOk w1 with
      | none => .fatal w1
      | some (w2, some e) => .fail e w2
      | some (w2, none) => .ok txID w2

/-- Bank.load (ui.go 365-388): (balance, error) as the Go method returns it.
No file: (0, nil). File present but unreadable, or present and readable but
not a JSON integer: (-1, the error). Otherwise the parsed balance. -/
def Bank.load (readOk : Bool) (file : Option (List Char)) : Int × Option Unit :=
  match file with
  | none => (0, none)
  | some s =>
    if readOk then
      match jsonParseInt s with
      | some balance => (balance, none)
      | none => (-1, some ())
    else (-1, some ())

/-- NewBank (ui.go 229-244): builds the Bank with balance 0 and an empty
requests map, calls load, logs the error if any, and assigns the returned
previousBalance to the balance unconditionally (also when load failed and
returned its -1 sentinel). -/
def NewBank (name : List Char) (readOk : Bool) (file : Option (List Char)) : Bank :=
  let bank : Bank := { name := name, balance := 0, requests := [] }
  let previousBalance := (Bank.load readOk file).1
  { bank with balance := previousBalance }

/-! ## Service and client (service.go withdrawHandler, client.go callService) -/

/-- An HTTP response as the client sees it: status code and body text.
http.Error writes the message followed by a newline; fmt.Fprintf on the
success path writes the body exactly. -/
structure HttpResponse where
  status : Nat
  body : List Char
deriving DecidableEq

/-- withdrawHandler (service.go): amount param present and parsing as an
int at least 1, else 400; then Bank.Withdraw; an error containing
"insufficient funds:" is rendered "ERROR: INSUFFICIENT_FUNDS: " plus the
colon-whitespace regexp capture of the error text, any other error
"ERROR: WITHDRAW_FAIL: " plus the text; errors go out as 400 with a
trailing newline (http.Error), success as 200. none models the process
dying inside Bank.save (log.Fatalf). -/
def withdrawHandler (amountParam : Option (List Char)) (keyParam : Option (List Char))
    (rnd : Nat → Nat) (createOk writeOk : Bool) (w : World) :
    Option (HttpResponse × World) :=
  match amountParam with
  | none => some (⟨400, ("ERROR: MISSING_AMOUNT_PARAM").data ++ ['\n']⟩, w)
  | some ap =>
    match atoi ap with
    | none => some (⟨400, ("ERROR: INVALID_AMOUNT").data ++ ['\n']⟩, w)
    | some amount =>
      if amount < 1 then some (⟨400, ("ERROR: INVALID_AMOUNT").data ++ ['\n']⟩, w)
      else
        let idempotencyKey := keyParam.getD []
        match Bank.Withdraw amount idempotencyKey rnd createOk writeOk w with
        | .fatal _ => none
        | .fail e w1 =>
          let es := errString e
          let message :=
            if containsSub (("insufficient funds:").data) es
            then ("ERROR: INSUFFICIENT_FUNDS: ").data ++ (capColonSpace es).getD []
            else ("ERROR: WITHDRAW_FAIL: ").data ++ es
          some (⟨400, message ++ ['\n']⟩, w1)
        | .ok txID w1 =>
          some (⟨200, ("SUCCESS: WITHDRAW_COMPLETE: transaction-id=").data ++ txID⟩, w1)

/-- The error a BankClient call surfaces: the InsufficientFundsError type
(client.go/errors.go) carrying the extracted detail, or a generic error
carrying status and body. -/
inductive ClientError where
  | InsufficientFundsError (message : List Char)
  | genericError (status : Nat) (body : List Char)
deriving DecidableEq

/-- callService (client.go 256-287), given the response: status at least 400
with a body containing "INSUFFICIENT_FUNDS" becomes an
InsufficientFundsError carrying the regexp capture after the
"INSUFFICIENT_FUNDS:" marker; any other status at least 400 a generic
error; otherwise the body is returned. -/
def callService (resp : HttpResponse) : Except ClientError (List Char) :=
  if 400 ≤ resp.status then
    if containsSub (("INSUFFICIENT_FUNDS").data) resp.body then
      .error (.InsufficientFundsError ((capMarker (("INSUFFICIENT_FUNDS:").data) resp.body).getD []))
    else .error (.genericError resp.status resp.body)
  else .ok resp.body

/-! ## Interleaved execution of two concurrent Deposit calls (C9)

The Go code reads bank.requests[idempotencyKey] (ui.go 268) outside the
requestsLock mutex; the mutex guards only the map write (278-280). Each
thread below therefore executes Bank.Deposit in two atomic phases: the
check phase (amount validation and the unguarded cache read) and the
mutate phase (balance update, ID generation, the locked cache write and
the save). This granularity is conservative: it is coarser than the Go
statement sequence, so any interleaving expressible here is expressible
in the Go scheduler. -/

/-- Program counter of a thread running Bank.Deposit. -/
inductive DepPhase where
  | check
  | mutate
  | finished
deriving DecidableEq

/-- A thread running Bank.Deposit: its phase and, once finished, the
transaction ID its call returned (none while running or on error). -/
structure ThreadState where
  phase : DepPhase
  result : Option (List Char)
deriving DecidableEq

/-- One atomic step of a thread running Deposit amount key with random
stream rnd against the shared world (persistence succeeding). -/
def depositStep (amount : Int) (key : List Char) (rnd : Nat → Nat) :
    ThreadState × World → ThreadState × World
  | (t, w) =>
    match t.phase with
    | .check =>
      if amount < 1 then ({ phase := .finished, result := none }, w)
      else
        match cachedTx key w.bank.requests with
        | some previousTxID => ({ phase := .finished, result := some previousTxID }, w)
        | none => ({ phase := .mutate, result := none }, w)
    | .mutate =>
      let bank1 := { w.bank with balance := w.bank.balance + amount }
      let txID := generateTransactionID (("D").data) 10 rnd
      let bank2 := { bank1 with requests := (key, txID) :: bank1.requests }
      match Bank.save true true { bank := bank2, file := w.file } with
      | none => ({ phase := .finished, result := none }, w)
      | some (w2, _) => ({ phase := .finished, result := some txID }, w2)
    | .finished => (t, w)

/-- Two threads and the shared world. -/
structure RaceState where
  t1 : ThreadState
  t2 : ThreadState
  world : World
deriving DecidableEq

/-- One scheduler step: pick = false runs thread 1, pick = true thread 2.
Both threads deposit the same amount under the same idempotency key, with
their own random streams. -/
def raceStep (amount : Int) (key : List Char) (rnd1 rnd2 : Nat → Nat)
    (pick : Bool) (s : RaceState) : RaceState :=
  if pick then
    let p := depositStep amount key rnd2 (s.t2, s.world)
    { s with t2 := p.1, world := p.2 }
  else
    let p := depositStep amount key rnd1 (s.t1, s.world)
    { s with t1 := p.1, world := p.2 }

/-- Run a schedule of scheduler steps. -/
def raceRun (amount : Int) (key : List Char) (rnd1 rnd2 : Nat → Nat)
    (sched : List Bool) (s : RaceState) : RaceState :=
  sched.foldl (fun s pick => raceStep amount key rnd1 rnd2 pick s) s

/-! ## Concrete fixtures for witnesses and counterexamples -/

/-- Random stream that always draws 0. -/
def rnd0 : Nat → Nat := fun _ => 0

/-- Random stream that always draws 1. -/
def rndOne : Nat → Nat := fun _ => 1

/-- A fresh world: empty account, no cache entries, no data file. -/
def wBase : World := ⟨⟨("tom").data, 0, []⟩, none⟩

/-- wBase after Deposit 100 with key k and stream rnd0. -/
def wC1 : World :=
  ⟨⟨("tom").data, 100, [(("k").data, ("D0000000000").data)]⟩, some (("100").data)⟩

/-- A world whose cache already holds key k bound to D123, balance 50. -/
def wC10 : World :=
  ⟨⟨("tom").data, 50, [(("k").data, ("D123").data)]⟩, some (("50").data)⟩

/-- A world with balance 1000 and key k already cached (for C3's witness:
the insufficient-funds check fires even on a cached key). -/
def wC3 : World :=
  ⟨⟨("tom").data, 1000, [(("k").data, ("W0000000000").data)]⟩, some (("1000").data)⟩

/-- The bank NewBank builds from a corrupt data file: load returned its -1
error sentinel and NewBank assigned it. -/
def corruptBank : Bank := ⟨("Tom").data, -1, []⟩

/-- The in-memory state Deposit 100 (empty key, stream rnd0) reaches on
wBase just before Bank.save runs. -/
def wMutated : World :=
  ⟨⟨("tom").data, 100, [([], ("D0000000000").data)]⟩, none⟩

/-- wMutated with the data file truncated by os.Create after file.Write
failed: save reported no error, yet the disk does not hold the balance. -/
def wTruncated : World :=
  ⟨⟨("tom").data, 100, [([], ("D0000000000").data)]⟩, some []⟩

/-- Initial race state: both threads at the check phase, fresh world. -/
def raceInit : RaceState := ⟨⟨.check, none⟩, ⟨.check, none⟩, wBase⟩

/-- The schedule in which both threads pass the cache check before either
mutates: thread 1 check, thread 2 check, thread 1 mutate, thread 2 mutate. -/
def raceSched : List Bool := [false, true, false, true]

deriving instance DecidableEq for Except

/-- World with balance 1000 and empty cache (C8's witness fixture). -/
def w8 : World := ⟨⟨("tom").data, 1000, []⟩, some (("1000").data)⟩

/-! ## Helper lemmas: string processing -/

theorem takeUntilNewline_eq_self (l : List Char) (h : '\n' ∉ l) :
    takeUntilNewline l = l := by
  induction l with
  | nil => rfl
  | cons c cs ih =>
    simp only [List.mem_cons, not_or] at h
    simp [takeUntilNewline, Ne.symm h.1, ih h.2]

theorem takeUntilNewline_append (l r : List Char) (h : '\n' ∉ l) :
    takeUntilNewline (l ++ '\n' :: r) = l := by
  induction l with
  | nil => simp [takeUntilNewline]
  | cons c cs ih =>
    simp only [List.mem_cons, not_or] at h
    simp [takeUntilNewline, Ne.symm h.1, ih h.2]

theorem dropPre_append_self (p r : List Char) : dropPre p (p ++ r) = some r := by
  induction p with
  | nil => rfl
  | cons a as ih => simp [dropPre, ih]

theorem containsSub_self_append (pat r : List Char) (h : pat ≠ []) :
    containsSub pat (pat ++ r) = true := by
  cases pat with
  | nil => exact absurd rfl h
  | cons a as =>
    have hd := dropPre_append_self (a :: as) r
    simp only [List.cons_append] at hd
    simp [containsSub, hd]

theorem containsSub_mono (p pat l : List Char) (h : containsSub pat l = true) :
    containsSub pat (p ++ l) = true := by
  induction p with
  | nil => simpa using h
  | cons c cs ih =>
    cases hl : cs ++ l with
    | nil => simp_all [containsSub]
    | cons d ds => simp [containsSub, ← hl, ih, Bool.or_true]

theorem capColonSpace_append (p r : List Char) (h : ∀ c ∈ p, c ≠ ':') :
    capColonSpace (p ++ ':' :: ' ' :: r) = some (takeUntilNewline r) := by
  induction p with
  | nil => simp [capColonSpace, isSpaceChar]
  | cons c cs ih =>
    have hc : c ≠ ':' := h c (List.mem_cons_self c cs)
    simp only [List.cons_append, capColonSpace, if_neg hc]
    exact ih fun d hd => h d (List.mem_cons_of_mem c hd)

theorem capMarker_append (mh : Char) (mt p r : List Char) (h : ∀ c ∈ p, c ≠ mh) :
    capMarker (mh :: mt) (p ++ mh :: (mt ++ ' ' :: r)) = some (takeUntilNewline r) := by
  induction p with
  | nil =>
    have hd : dropPre (mh :: mt) (mh :: (mt ++ ' ' :: r)) = some (' ' :: r) := by
      have := dropPre_append_self (mh :: mt) (' ' :: r)
      simpa using this
    show capMarker (mh :: mt) (mh :: (mt ++ ' ' :: r)) = some (takeUntilNewline r)
    simp only [capMarker, hd]
    simp [isSpaceChar]
  | cons c cs ih =>
    have hc : c ≠ mh := h c (List.mem_cons_self c cs)
    have hdrop : dropPre (mh :: mt) (c :: (cs ++ mh :: (mt ++ ' ' :: r))) = none := by
      simp only [dropPre, if_neg (Ne.symm hc)]
    show capMarker (mh :: mt) (c :: (cs ++ mh :: (mt ++ ' ' :: r))) = some (takeUntilNewline r)
    simp only [capMarker, hdrop]
    exact ih fun d hd => h d (List.mem_cons_of_mem c hd)

/-! ## Helper lemmas: decimal renderings are made of digits -/

theorem getD_mem_allowedChars : ∀ n < 10, allowedChars.getD n '0' ∈ allowedChars := by
  decide

theorem getD_mod_mem_allowedChars (n : Nat) :
    allowedChars.getD (n % 10) '0' ∈ allowedChars :=
  getD_mem_allowedChars (n % 10) (Nat.mod_lt n (by decide))

theorem mem_natReprAux (fuel n : Nat) (c : Char) (h : c ∈ natReprAux fuel n) :
    c ∈ allowedChars := by
  induction fuel generalizing n with
  | zero => simp [natReprAux] at h
  | succ fuel ih =>
    by_cases hn : n < 10
    · simp only [natReprAux, if_pos hn, List.mem_singleton] at h
      exact h ▸ getD_mem_allowedChars n hn
    · simp only [natReprAux, if_neg hn, List.mem_append, List.mem_singleton] at h
      rcases h with h | h
      · exact ih _ h
      · exact h ▸ getD_mod_mem_allowedChars n

theorem mem_intRepr (i : Int) (c : Char) (h : c ∈ intRepr i) :
    c ∈ allowedChars ∨ c = '-' := by
  unfold intRepr at h
  by_cases hi : i < 0
  · rw [if_pos hi] at h
    rcases List.mem_cons.mp h with h | h
    · exact Or.inr h
    · exact Or.inl (mem_natReprAux _ _ _ h)
  · rw [if_neg hi] at h
    exact Or.inl (mem_natReprAux _ _ _ h)

theorem allowedChars_plain :
    ∀ c ∈ allowedChars, c ≠ '\n' ∧ c ≠ ':' := by decide

theorem intRepr_no_newline (i : Int) : '\n' ∉ intRepr i := by
  intro h
  rcases mem_intRepr i '\n' h with h' | h'
  · exact (allowedChars_plain _ h').1 rfl
  · exact absurd h' (by decide)

theorem wdDetail_no_newline (a b : Int) : '\n' ∉ wdDetail a b := by
  intro h
  simp only [wdDetail, List.mem_append] at h
  rcases h with ((h | h) | h) | h
  · revert h; decide
  · exact intRepr_no_newline a h
  · revert h; decide
  · exact intRepr_no_newline b h

/-! ## Helper lemmas: ledger operations -/

theorem Deposit_invalid (amount : Int) (key : List Char) (rnd : Nat → Nat)
    (co wo : Bool) (w : World) (h : amount < 1) :
    Bank.Deposit amount key rnd co wo w = .fail (.invalidAmountDep amount) w := by
  unfold Bank.Deposit
  rw [if_pos h]

theorem Withdraw_invalid (amount : Int) (key : List Char) (rnd : Nat → Nat)
    (co wo : Bool) (w : World) (h : amount < 1) :
    Bank.Withdraw amount key rnd co wo w = .fail (.invalidAmountWd amount) w := by
  unfold Bank.Withdraw
  rw [if_pos h]

theorem Withdraw_insufficient (amount : Int) (key : List Char) (rnd : Nat → Nat)
    (co wo : Bool) (w : World) (h1 : 1 ≤ amount) (h2 : w.bank.balance < amount) :
    Bank.Withdraw amount key rnd co wo w
      = .fail (.insufficientFunds amount w.bank.balance) w := by
  unfold Bank.Withdraw
  rw [if_neg (by omega), if_pos h2]

theorem cachedTx_of_lookup (key : List Char) (reqs : List (List Char × List Char))
    (t : List Char) (hk : key ≠ []) (hl : lookupKey reqs key = some t) :
    cachedTx key reqs = some t := by
  unfold cachedTx
  rw [if_neg hk, hl]

theorem Deposit_cached (amount : Int) (key : List Char) (t : List Char) (rnd : Nat → Nat)
    (co wo : Bool) (w : World) (hk : key ≠ []) (hl : lookupKey w.bank.requests key = some t)
    (ha : 1 ≤ amount) :
    Bank.Deposit amount key rnd co wo w = .ok t w := by
  unfold Bank.Deposit
  rw [if_neg (by omega), cachedTx_of_lookup key _ t hk hl]

theorem Withdraw_cached (amount : Int) (key : List Char) (t : List Char) (rnd : Nat → Nat)
    (co wo : Bool) (w : World) (hk : key ≠ []) (hl : lookupKey w.bank.requests key = some t)
    (ha : 1 ≤ amount) (hb : amount ≤ w.bank.balance) :
    Bank.Withdraw amount key rnd co wo w = .ok t w := by
  unfold Bank.Withdraw
  rw [if_neg (by omega), if_neg (by omega), cachedTx_of_lookup key _ t hk hl]

theorem Deposit_fresh (amount : Int) (key : List Char) (rnd : Nat → Nat)
    (wo : Bool) (w : World) (ha : 1 ≤ amount) (hc : cachedTx key w.bank.requests = none) :
    Bank.Deposit amount key rnd true wo w
      = .ok (generateTransactionID (("D").data) 10 rnd)
          ⟨⟨w.bank.name, w.bank.balance + amount,
            (key, generateTransactionID (("D").data) 10 rnd) :: w.bank.requests⟩,
           some (if wo then intRepr (w.bank.balance + amount) else [])⟩ := by
  unfold Bank.Deposit
  rw [if_neg (by omega), hc]
  simp [Bank.save]

theorem Withdraw_fresh (amount : Int) (key : List Char) (rnd : Nat → Nat)
    (wo : Bool) (w : World) (ha : 1 ≤ amount) (hb : amount ≤ w.bank.balance)
    (hc : cachedTx key w.bank.requests = none) :
    Bank.Withdraw amount key rnd true wo w
      = .ok (generateTransactionID (("W").data) 10 rnd)
          ⟨⟨w.bank.name, w.bank.balance - amount,
            (key, generateTransactionID (("W").data) 10 rnd) :: w.bank.requests⟩,
           some (if wo then intRepr (w.bank.balance - amount) else [])⟩ := by
  unfold Bank.Withdraw
  rw [if_neg (by omega), if_neg (by omega), hc]
  simp [Bank.save]

theorem Deposit_ok_records (amount : Int) (key : List Char) (rnd : Nat → Nat)
    (co wo : Bool) (w : World) (tx : List Char) (w1 : World) (hk : key ≠ [])
    (hl : lookupKey w.bank.requests key = none)
    (h : Bank.Deposit amount key rnd co wo w = .ok tx w1) :
    lookupKey w1.bank.requests key = some tx := by
  unfold Bank.Deposit at h
  by_cases ha : amount < 1
  · rw [if_pos ha] at h
    exact absurd h (by simp)
  · rw [if_neg ha] at h
    rw [show cachedTx key w.bank.requests = none by simp [cachedTx, if_neg hk, hl]] at h
    cases co with
    | false => simp [Bank.save] at h
    | true =>
      simp only [Bank.save, if_pos trivial, reduceIte] at h
      injection h with htx hw
      subst hw
      subst htx
      simp [lookupKey]

theorem Withdraw_ok_records (amount : Int) (key : List Char) (rnd : Nat → Nat)
    (co wo : Bool) (w : World) (tx : List Char) (w1 : World) (hk : key ≠ [])
    (hl : lookupKey w.bank.requests key = none)
    (h : Bank.Withdraw amount key rnd co wo w = .ok tx w1) :
    lookupKey w1.bank.requests key = some tx := by
  unfold Bank.Withdraw at h
  by_cases ha : amount < 1
  · rw [if_pos ha] at h
    exact absurd h (by simp)
  · rw [if_neg ha] at h
    by_cases hb : w.bank.balance < amount
    · rw [if_pos hb] at h
      exact absurd h (by simp)
    · rw [if_neg hb] at h
      rw [show cachedTx key w.bank.requests = none by simp [cachedTx, if_neg hk, hl]] at h
      cases co with
      | false => simp [Bank.save] at h
      | true =>
        simp only [Bank.save, if_pos trivial, reduceIte] at h
        injection h with htx hw
        subst hw
        subst htx
        simp [lookupKey]

theorem generateTransactionID_format (pre : List Char) (n : Nat) (rnd : Nat → Nat) :
    (generateTransactionID pre n rnd).length = pre.length + n
      ∧ ∀ c ∈ (List.range n).map (fun i => allowedChars.getD (rnd i % 10) '0'),
          c ∈ allowedChars := by
  constructor
  · simp [generateTransactionID]
  · intro c hc
    rcases List.mem_map.mp hc with ⟨i, _, hi⟩
    exact hi ▸ getD_mod_mem_allowedChars (rnd i)

/-! ## The claims -/

/-- Claim C1, amended. The claim as frozen says any later Deposit or
Withdraw with an already-used key returns the original transaction ID; the
counterexample shows a later Withdraw whose amount exceeds the balance
fails instead (the insufficient-funds check precedes the cache lookup, as
claim C3 states), so the amendment restricts the replay to invocations
that pass the operation's own pre-checks: amount at least 1 and, for
Withdraw, amount at most the balance. So amended: (record) a first use of a
non-empty key that succeeds with ID tx leaves the cache mapping the key to
tx, for Deposit and for Withdraw alike; (replay) whenever the shared cache
maps a non-empty key to t, a Deposit or Withdraw with that key passing its
pre-checks returns t and leaves the whole world (balance included)
unchanged — the cache is shared, so a Deposit-recorded key dedupes a later
Withdraw and vice versa. -/
theorem C1_idempotent_replay_amended :
    (∀ amount key rnd co wo w tx w1, key ≠ [] →
        lookupKey w.bank.requests key = none →
        Bank.Deposit amount key rnd co wo w = .ok tx w1 →
        lookupKey w1.bank.requests key = some tx)
    ∧ (∀ amount key rnd co wo w tx w1, key ≠ [] →
        lookupKey w.bank.requests key = none →
        Bank.Withdraw amount key rnd co wo w = .ok tx w1 →
        lookupKey w1.bank.requests key = some tx)
    ∧ (∀ amount key t rnd co wo w, key ≠ [] →
        lookupKey w.bank.requests key = some t → 1 ≤ amount →
        Bank.Deposit amount key rnd co wo w = .ok t w)
    ∧ (∀ amount key t rnd co wo w, key ≠ [] →
        lookupKey w.bank.requests key = some t → 1 ≤ amount →
        amount ≤ w.bank.balance →
        Bank.Withdraw amount key rnd co wo w = .ok t w) := by
  refine ⟨?_, ?_, ?_, ?_⟩
  · intro amount key rnd co wo w tx w1 hk hl h
    exact Deposit_ok_records amount key rnd co wo w tx w1 hk hl h
  · intro amount key rnd co wo w tx w1 hk hl h
    exact Withdraw_ok_records amount key rnd co wo w tx w1 hk hl h
  · intro amount key t rnd co wo w hk hl ha
    exact Deposit_cached amount key t rnd co wo w hk hl ha
  · intro amount key t rnd co wo w hk hl ha hb
    exact Withdraw_cached amount key t rnd co wo w hk hl ha hb

/-- Witness for C1: on the fresh world, Deposit 100 with key k succeeds
with ID D0000000000 and records it; the replayed Deposit 500 and Withdraw
50 with key k both return that ID and leave the world untouched. -/
theorem C1_witness :
    lookupKey wC1.bank.requests (("k").data) = some (("D0000000000").data)
    ∧ Bank.Deposit 500 (("k").data) rndOne true true wC1
        = .ok (("D0000000000").data) wC1
    ∧ Bank.Withdraw 50 (("k").data) rndOne true true wC1
        = .ok (("D0000000000").data) wC1 :=
  ⟨C1_idempotent_replay_amended.1 100 (("k").data) rnd0 true true wBase
      (("D0000000000").data) wC1 (by decide) (by decide) (by decide),
   C1_idempotent_replay_amended.2.2.1 500 (("k").data) (("D0000000000").data)
      rndOne true true wC1 (by decide) (by decide) (by decide),
   C1_idempotent_replay_amended.2.2.2 50 (("k").data) (("D0000000000").data)
      rndOne true true wC1 (by decide) (by decide) (by decide) (by decide)⟩

/-- Counterexample to C1 as frozen: after Deposit 100 with key k succeeded
with ID D0000000000, the later Withdraw 200 with the same key does not
return that ID — it fails with insufficient funds, because the balance
check precedes the idempotency lookup. -/
theorem C1_counterexample :
    Bank.Deposit 100 (("k").data) rnd0 true true wBase
      = .ok (("D0000000000").data) wC1
    ∧ Bank.Withdraw 200 (("k").data) rnd0 true true wC1
      = .fail (.insufficientFunds 200 100) wC1
    ∧ OpResult.txOf (Bank.Withdraw 200 (("k").data) rnd0 true true wC1)
      ≠ some (("D0000000000").data) :=
  ⟨by decide, by decide, by decide⟩

/-- Claim C2 evaluated at its failing input: the claim says the balance is
non-negative after NewBank whether or not a prior data file is readable,
but NewBank on a present-but-corrupt data file assigns load's -1 error
sentinel to the balance, contradicting NewBank's own documentation (the
balance is the previous session's or zero). -/
theorem C2_negative_balance_after_corrupt_load :
    jsonParseInt (("xyz").data) = none
    ∧ (NewBank (("Ted").data) true (some (("xyz").data))).balance = -1
    ∧ (NewBank (("Ted").data) true (some (("xyz").data))).balance < 0 :=
  ⟨by decide, by decide, by decide⟩

/-- Claim C3: for every amount at least 1 that exceeds the current
balance, Withdraw fails with insufficientFunds carrying the requested
amount and the current balance and returns the world unchanged; the
statement holds for every idempotency key and every cache state — in
particular for keys already cached — because the check precedes the
idempotency lookup. -/
theorem C3_insufficient_funds_before_cache (amount : Int) (key : List Char)
    (rnd : Nat → Nat) (co wo : Bool) (w : World)
    (h1 : 1 ≤ amount) (h2 : w.bank.balance < amount) :
    Bank.Withdraw amount key rnd co wo w
      = .fail (.insufficientFunds amount w.bank.balance) w :=
  Withdraw_insufficient amount key rnd co wo w h1 h2

/-- Witness for C3: balance 1000, Withdraw 5000 under a key that is
already in the cache still fails with insufficient funds. -/
theorem C3_witness :
    lookupKey wC3.bank.requests (("k").data) = some (("W0000000000").data)
    ∧ Bank.Withdraw 5000 (("k").data) rnd0 true true wC3
      = .fail (.insufficientFunds 5000 1000) wC3 :=
  ⟨by decide,
   C3_insufficient_funds_before_cache 5000 (("k").data) rnd0 true true wC3
     (by decide) (by decide)⟩

/-- Claim C5: for every amount below 1 and every idempotency key, Deposit
and Withdraw fail with their invalid-amount errors, return no transaction
ID (the fail outcome carries none) and return the world — balance, cache
and file — unchanged. -/
theorem C5_invalid_amount_rejected (amount : Int) (key : List Char)
    (rnd : Nat → Nat) (co wo : Bool) (w : World) (h : amount < 1) :
    Bank.Deposit amount key rnd co wo w = .fail (.invalidAmountDep amount) w
    ∧ Bank.Withdraw amount key rnd co wo w = .fail (.invalidAmountWd amount) w :=
  ⟨Deposit_invalid amount key rnd co wo w h, Withdraw_invalid amount key rnd co wo w h⟩

/-- Witness for C5 at amount 0. -/
theorem C5_witness :
    (0 : Int) < 1
    ∧ (Bank.Deposit 0 (("z").data) rnd0 true true wC3 = .fail (.invalidAmountDep 0) wC3
       ∧ Bank.Withdraw 0 (("z").data) rnd0 true true wC3 = .fail (.invalidAmountWd 0) wC3) :=
  ⟨by decide, C5_invalid_amount_rejected 0 (("z").data) rnd0 true true wC3 (by decide)⟩

/-- Claim C9 evaluated at its failing schedule: two concurrent
Deposit 100 calls with the same non-empty key k1, interleaved so that both
pass the (unguarded) cache check before either mutates, BOTH apply their
balance change — the final balance is 200, not 100 — and each returns its
own fresh transaction ID rather than one observing the other's. The claim
(at most one applies, the other observes the cached ID) is the spec's
stated requirement; the code's mutex guards only the map write, not the
read-check-apply sequence. -/
theorem C9_both_apply_under_race :
    raceInit.world.bank.balance = 0
    ∧ (raceRun 100 (("k1").data) rnd0 rndOne raceSched raceInit).world.bank.balance = 200
    ∧ (raceRun 100 (("k1").data) rnd0 rndOne raceSched raceInit).t1.result
      = some (("D0000000000").data)
    ∧ (raceRun 100 (("k1").data) rnd0 rndOne raceSched raceInit).t2.result
      = some (("D1111111111").data)
    ∧ (("D0000000000").data) ≠ (("D1111111111").data) :=
  ⟨by decide, by decide, by decide, by decide, by decide⟩

/-- Claim C10, amended. As frozen the claim quantifies over every call
with a cached key, but a call with amount below 1 is rejected by the
amount check before the cache lookup (see the counterexample), so the
amendment adds the pre-check amount at least 1. So amended: a Deposit or
Withdraw whose non-empty key is cached (and whose amount passes the
checks: at least 1, and for Withdraw at most the balance) returns the
cached transaction ID with the world returned exactly as it was —
balance, cache and data file unchanged — and this holds for every
persistence oracle (createOk and writeOk false included), which shows no
write to the data file is attempted before returning. -/
theorem C10_cached_hit_frame_amended (amount : Int) (key t : List Char)
    (rnd : Nat → Nat) (co wo : Bool) (w : World) (hk : key ≠ [])
    (hl : lookupKey w.bank.requests key = some t) (ha : 1 ≤ amount) :
    Bank.Deposit amount key rnd co wo w = .ok t w
    ∧ (amount ≤ w.bank.balance → Bank.Withdraw amount key rnd co wo w = .ok t w) :=
  ⟨Deposit_cached amount key t rnd co wo w hk hl ha,
   fun hb => Withdraw_cached amount key t rnd co wo w hk hl ha hb⟩

/-- Witness for C10: cached key k bound to D123, balance 50; Deposit 7 and
Withdraw 7 both return D123 and the untouched world, even with both
persistence oracles failing (no write is attempted). -/
theorem C10_witness :
    lookupKey wC10.bank.requests (("k").data) = some (("D123").data)
    ∧ (Bank.Deposit 7 (("k").data) rnd0 false false wC10 = .ok (("D123").data) wC10
       ∧ (7 ≤ wC10.bank.balance →
          Bank.Withdraw 7 (("k").data) rnd0 false false wC10 = .ok (("D123").data) wC10)) :=
  ⟨by decide,
   C10_cached_hit_frame_amended 7 (("k").data) (("D123").data) rnd0 false false wC10
     (by decide) (by decide) (by decide)⟩

/-- Counterexample to C10 as frozen: with key k cached (bound to D123), a
Deposit of amount 0 does not return the cached ID — it fails with the
invalid-amount error, because the amount check precedes the cache lookup. -/
theorem C10_counterexample :
    lookupKey wC10.bank.requests (("k").data) = some (("D123").data)
    ∧ Bank.Deposit 0 (("k").data) rnd0 true true wC10 = .fail (.invalidAmountDep 0) wC10
    ∧ OpResult.txOf (Bank.Deposit 0 (("k").data) rnd0 true true wC10)
      ≠ some (("D123").data) :=
  ⟨by decide, by decide, by decide⟩

/-- Claim C6, amended. The first half of the claim holds: constructing the
ledger with no persisted data file yields balance 0. The second half
("a present but corrupt record is a fatal load error; construction does
not proceed with a usable balance") does not: load does return an error
for an unparsable file, but NewBank only logs it and proceeds,
constructing a Bank whose balance is load's -1 sentinel. So amended:
no file gives balance 0; a present file that does not parse as a JSON
integer makes load return (-1, error), and NewBank proceeds with
balance -1 and an empty cache. -/
theorem C6_load_amended (name s : List Char) (readOk : Bool)
    (hbad : jsonParseInt s = none) :
    NewBank name readOk none = ⟨name, 0, []⟩
    ∧ Bank.load readOk none = (0, none)
    ∧ Bank.load true (some s) = (-1, some ())
    ∧ NewBank name true (some s) = ⟨name, -1, []⟩ := by
  refine ⟨rfl, rfl, ?_, ?_⟩
  · simp [Bank.load, hbad]
  · simp [NewBank, Bank.load, hbad]

/-- Witness for C6 at the corrupt file contents "oops". -/
theorem C6_witness :
    jsonParseInt (("oops").data) = none
    ∧ NewBank (("Tom").data) true (some (("oops").data)) = ⟨("Tom").data, -1, []⟩ :=
  ⟨by decide,
   (C6_load_amended (("Tom").data) (("oops").data) true (by decide)).2.2.2⟩

/-- Counterexample to C6 as frozen: with the data file holding the
unparsable contents "nonsense", construction proceeds and returns a Bank
with balance -1 — not a fatal stop — and that Bank is usable: a Deposit
of 1 on it succeeds (bringing the balance to 0). -/
theorem C6_counterexample :
    NewBank (("Tom").data) true (some (("nonsense").data)) = corruptBank
    ∧ corruptBank.balance = -1
    ∧ Bank.Deposit 1 [] rnd0 true true ⟨corruptBank, some (("nonsense").data)⟩
      = .ok (("D0000000000").data)
          ⟨⟨("Tom").data, 0, [([], ("D0000000000").data)]⟩, some (("0").data)⟩ :=
  ⟨by decide, by decide, by decide⟩

/-- Claim C7 evaluated against the code: the claim says a failing durable
write makes the operation return a PersistenceError to its caller, but
Bank.save can never return a non-nil error — os.Create failing hits
log.Fatalf (the process dies, modelled as the fatal outcome, with the
in-memory update applied and the file unchanged), and a failing
file.Write or file.Sync is ignored (the operation reports success while
the file holds the truncated empty content instead of the balance). The
first conjunct proves no Deposit or Withdraw ever returns the
persistence error; the rest evaluate the two failure modes concretely. -/
theorem C7_no_persistence_error_returned :
    (∀ amount key rnd co wo w,
        isPersistFail (Bank.Deposit amount key rnd co wo w) = false
        ∧ isPersistFail (Bank.Withdraw amount key rnd co wo w) = false)
    ∧ Bank.Deposit 100 [] rnd0 false true wBase = .fatal wMutated
    ∧ wMutated.bank.balance = 100 ∧ wMutated.file = none
    ∧ Bank.Deposit 100 [] rnd0 true false wBase = .ok (("D0000000000").data) wTruncated
    ∧ wTruncated.bank.balance = 100 ∧ wTruncated.file = some [] := by
  refine ⟨?_, by decide, by decide, by decide, by decide, by decide, by decide⟩
  intro amount key rnd co wo w
  constructor
  · by_cases ha : amount < 1
    · simp [Bank.Deposit, if_pos ha, isPersistFail]
    · cases hc : cachedTx key w.bank.requests with
      | some t => simp [Bank.Deposit, if_neg ha, hc, isPersistFail]
      | none =>
        cases co <;> simp [Bank.Deposit, if_neg ha, hc, Bank.save, isPersistFail]
  · by_cases ha : amount < 1
    · simp [Bank.Withdraw, if_pos ha, isPersistFail]
    · by_cases hb : w.bank.balance < amount
      · simp [Bank.Withdraw, if_neg ha, if_pos hb, isPersistFail]
      · cases hc : cachedTx key w.bank.requests with
        | some t => simp [Bank.Withdraw, if_neg ha, if_neg hb, hc, isPersistFail]
        | none =>
          cases co <;>
            simp [Bank.Withdraw, if_neg ha, if_neg hb, hc, Bank.save, isPersistFail]

/-- Claim C4: with the empty idempotency key and any amount at least 1, a
successful Deposit (persistence reachable, createOk) increases the balance
by exactly the amount and returns an ID of length 11 whose first character
is D and whose remaining 10 characters are decimal digits; a Withdraw with
amount at most the balance decreases it by exactly the amount with an ID
of W followed by 10 decimal digits. -/
theorem C4_success_effects_and_id_format (amount : Int) (rnd : Nat → Nat)
    (wo : Bool) (w : World) (h : 1 ≤ amount) :
    (∃ tx w1, Bank.Deposit amount [] rnd true wo w = .ok tx w1
      ∧ w1.bank.balance = w.bank.balance + amount
      ∧ tx.length = 11 ∧ tx.take 1 = ['D'] ∧ ∀ c ∈ tx.drop 1, c ∈ allowedChars)
    ∧ (amount ≤ w.bank.balance →
      ∃ tx w1, Bank.Withdraw amount [] rnd true wo w = .ok tx w1
        ∧ w1.bank.balance = w.bank.balance - amount
        ∧ tx.length = 11 ∧ tx.take 1 = ['W'] ∧ ∀ c ∈ tx.drop 1, c ∈ allowedChars) := by
  have hD : ("D").data = ['D'] := by decide
  have hW : ("W").data = ['W'] := by decide
  constructor
  · refine ⟨generateTransactionID (("D").data) 10 rnd, _,
      Deposit_fresh amount [] rnd wo w h (by simp [cachedTx]), rfl, ?_, ?_, ?_⟩
    · simp [generateTransactionID]
    · simp [generateTransactionID, hD]
    · intro c hc
      rw [generateTransactionID, hD] at hc
      simp only [List.cons_append, List.nil_append, List.drop_succ_cons,
        List.drop_zero] at hc
      exact (generateTransactionID_format (("D").data) 10 rnd).2 c hc
  · intro hb
    refine ⟨generateTransactionID (("W").data) 10 rnd, _,
      Withdraw_fresh amount [] rnd wo w h hb (by simp [cachedTx]), rfl, ?_, ?_, ?_⟩
    · simp [generateTransactionID]
    · simp [generateTransactionID, hW]
    · intro c hc
      rw [generateTransactionID, hW] at hc
      simp only [List.cons_append, List.nil_append, List.drop_succ_cons,
        List.drop_zero] at hc
      exact (generateTransactionID_format (("W").data) 10 rnd).2 c hc

/-- Witness for C4: Deposit 5 on the fresh world and Withdraw 5 on the
balance-1000 world. -/
theorem C4_witness :
    (∃ tx w1, Bank.Deposit 5 [] rnd0 true true wBase = .ok tx w1
      ∧ w1.bank.balance = wBase.bank.balance + 5
      ∧ tx.length = 11 ∧ tx.take 1 = ['D'] ∧ ∀ c ∈ tx.drop 1, c ∈ allowedChars)
    ∧ (∃ tx w1, Bank.Withdraw 5 [] rnd0 true true wC3 = .ok tx w1
      ∧ w1.bank.balance = wC3.bank.balance - 5
      ∧ tx.length = 11 ∧ tx.take 1 = ['W'] ∧ ∀ c ∈ tx.drop 1, c ∈ allowedChars) :=
  ⟨(C4_success_effects_and_id_format 5 rnd0 true wBase (by decide)).1,
   (C4_success_effects_and_id_format 5 rnd0 true wC3 (by decide)).2 (by decide)⟩


/-- Claim C8: a Withdraw request whose amount parameter parses to an
amount of at least 1 exceeding the current balance yields an HTTP 400
response whose body is exactly "ERROR: INSUFFICIENT_FUNDS: " followed by
the detail text ("withdrawal amount $a exceeds balance $b") and the
newline http.Error appends; the body contains the marker
"INSUFFICIENT_FUNDS:", and the Client's callService turns that response
into an InsufficientFundsError whose detail is exactly the detail the
Service rendered after the marker (the regexp capture stops at the
newline, so the two texts agree character for character). -/
theorem C8_wire_roundtrip (w : World) (ap : List Char) (ks : Option (List Char))
    (amount : Int) (rnd : Nat → Nat) (co wo : Bool)
    (hp : atoi ap = some amount) (h1 : 1 ≤ amount) (h2 : w.bank.balance < amount) :
    withdrawHandler (some ap) ks rnd co wo w
      = some (⟨400, ("ERROR: INSUFFICIENT_FUNDS: ").data
          ++ wdDetail amount w.bank.balance ++ ['\n']⟩, w)
    ∧ containsSub (("INSUFFICIENT_FUNDS:").data)
        (("ERROR: INSUFFICIENT_FUNDS: ").data ++ wdDetail amount w.bank.balance ++ ['\n'])
      = true
    ∧ callService ⟨400, ("ERROR: INSUFFICIENT_FUNDS: ").data
          ++ wdDetail amount w.bank.balance ++ ['\n']⟩
      = .error (.InsufficientFundsError (wdDetail amount w.bank.balance)) := by
  have hwd := Withdraw_insufficient amount (ks.getD []) rnd co wo w h1 h2
  have hes : errString (.insufficientFunds amount w.bank.balance)
      = ("insufficient funds").data ++ ':' :: ' ' :: wdDetail amount w.bank.balance := by
    show ("insufficient funds: ").data ++ wdDetail amount w.bank.balance = _
    have hx : ("insufficient funds: ").data = ("insufficient funds").data ++ [':', ' '] := by
      decide
    rw [hx, List.append_assoc]
    rfl
  have hcont1 : containsSub (("insufficient funds:").data)
      (errString (.insufficientFunds amount w.bank.balance)) = true := by
    have hsplit : ("insufficient funds: ").data
        = ("insufficient funds:").data ++ [' '] := by decide
    show containsSub _ (("insufficient funds: ").data ++ wdDetail amount w.bank.balance)
        = true
    rw [hsplit, List.append_assoc]
    exact containsSub_self_append _ _ (by decide)
  have hcap : capColonSpace (errString (.insufficientFunds amount w.bank.balance))
      = some (wdDetail amount w.bank.balance) := by
    rw [hes, capColonSpace_append _ _ (by decide),
      takeUntilNewline_eq_self _ (wdDetail_no_newline _ _)]
  have hhandler : withdrawHandler (some ap) ks rnd co wo w
      = some (⟨400, ("ERROR: INSUFFICIENT_FUNDS: ").data
          ++ wdDetail amount w.bank.balance ++ ['\n']⟩, w) := by
    simp only [withdrawHandler, hp]
    rw [if_neg (by omega)]
    simp only [hwd, hcont1, hcap, if_true, Option.getD_some]
  have hb1 : ("ERROR: INSUFFICIENT_FUNDS: ").data
      = ("ERROR: ").data ++ ("INSUFFICIENT_FUNDS").data ++ (": ").data := by decide
  have hcont2 : containsSub (("INSUFFICIENT_FUNDS").data)
      (("ERROR: INSUFFICIENT_FUNDS: ").data ++ wdDetail amount w.bank.balance ++ ['\n'])
      = true := by
    rw [hb1]
    rw [List.append_assoc, List.append_assoc, List.append_assoc]
    exact containsSub_mono _ _ _ (containsSub_self_append _ _ (by decide))
  have hcont2' : containsSub (("INSUFFICIENT_FUNDS:").data)
      (("ERROR: INSUFFICIENT_FUNDS: ").data ++ wdDetail amount w.bank.balance ++ ['\n'])
      = true := by
    have hb1' : ("ERROR: INSUFFICIENT_FUNDS: ").data
        = ("ERROR: ").data ++ ("INSUFFICIENT_FUNDS:").data ++ (" ").data := by decide
    rw [hb1']
    rw [List.append_assoc, List.append_assoc, List.append_assoc]
    exact containsSub_mono _ _ _ (containsSub_self_append _ _ (by decide))
  have hmk : ("INSUFFICIENT_FUNDS:").data = 'I' :: ("NSUFFICIENT_FUNDS:").data := by decide
  have hb2 : ("ERROR: INSUFFICIENT_FUNDS: ").data
        ++ wdDetail amount w.bank.balance ++ ['\n']
      = ("ERROR: ").data
        ++ 'I' :: (("NSUFFICIENT_FUNDS:").data
          ++ ' ' :: (wdDetail amount w.bank.balance ++ ['\n'])) := by
    have hx : ("ERROR: INSUFFICIENT_FUNDS: ").data
        = ("ERROR: ").data ++ 'I' :: (("NSUFFICIENT_FUNDS:").data ++ [' ']) := by decide
    rw [hx]
    simp [List.append_assoc]
  have hcapm : capMarker (("INSUFFICIENT_FUNDS:").data)
      (("ERROR: INSUFFICIENT_FUNDS: ").data ++ wdDetail amount w.bank.balance ++ ['\n'])
      = some (wdDetail amount w.bank.balance) := by
    rw [hmk, hb2, capMarker_append 'I' _ _ _ (by decide),
      takeUntilNewline_append _ _ (wdDetail_no_newline _ _)]
  have hcall : callService ⟨400, ("ERROR: INSUFFICIENT_FUNDS: ").data
        ++ wdDetail amount w.bank.balance ++ ['\n']⟩
      = .error (.InsufficientFundsError (wdDetail amount w.bank.balance)) := by
    simp only [callService]
    rw [if_pos (by norm_num)]
    simp only [hcont2, if_true, hcapm, Option.getD_some]
  exact ⟨hhandler, hcont2', hcall⟩

/-- Witness for C8: balance 1000, requested amount 5000, amount parameter
"5000". -/
theorem C8_witness :
    atoi (("5000").data) = some 5000
    ∧ (withdrawHandler (some (("5000").data)) none rnd0 true true w8
        = some (⟨400, ("ERROR: INSUFFICIENT_FUNDS: ").data
            ++ wdDetail 5000 w8.bank.balance ++ ['\n']⟩, w8)
      ∧ containsSub (("INSUFFICIENT_FUNDS:").data)
          (("ERROR: INSUFFICIENT_FUNDS: ").data ++ wdDetail 5000 w8.bank.balance ++ ['\n'])
        = true
      ∧ callService ⟨400, ("ERROR: INSUFFICIENT_FUNDS: ").data
            ++ wdDetail 5000 w8.bank.balance ++ ['\n']⟩
        = .error (.InsufficientFundsError (wdDetail 5000 w8.bank.balance))) :=
  ⟨by decide,
   C8_wire_roundtrip w8 (("5000").data) none 5000 rnd0 true true
     (by decide) (by decide) (by decide)⟩
